import Mathlib

/-!
Verification of the Omnituum secure-intake-client submission core.

This file gives a shallow embedding of the client-side submission logic:
the deterministic request-id generator (src/id.ts), the sessionStorage-based
pending-submission store (src/pending.ts), the sliding-window rate limiter
(src/ratelimit.ts), the downgrade-reason classifier and the X25519-only
classical seal (src/submit.ts, lazy variant), and the end-to-end
submitSecureIntake orchestrator.

Modelling conventions:
- byte arrays (Uint8Array) are lists of naturals, meaningful below 256;
- external primitives (noble blake3, TextEncoder, tweetnacl secretbox and
  scalarMult, HKDF, JSON.stringify, the envelope-registry version constant)
  are passed in as an ExternalFns record: the repository treats them as
  opaque collaborators, and theorems state only the properties of in-repo
  code, assuming the documented shape of the primitives where needed;
- effects (Date.now, randomness, sessionStorage success, the fetch
  transport, the lazily loaded hybrid module) are a SubmitEnv oracle plus
  explicit state threading; a thrown JS exception is an Except.error
  carrying the message the catch block would read;
- the orchestrator additionally returns a Trace recording the observable
  side effects (retry flag, downgrade events, envelope construction,
  transport invocation) so frame properties can be stated.
-/

namespace SecureIntake

/-- Byte strings (JS Uint8Array) as lists of naturals. -/
abbrev Bytes := List Nat

/- ═══════════════ Hex rendering (src/id.ts bytesToHex, primitives toHex) ═══════════════ -/

/-- Lowercase hex digit for a value below 16 (JS Number.toString(16) digit). -/
def hexDigitChar (n : Nat) : Char :=
  if n < 10 then Char.ofNat (48 + n) else Char.ofNat (87 + n)

/-- JS b.toString(16) for a Uint8Array element (a value below 256): one digit
below 16, otherwise the two digits of b in base 16. -/
def byteHexDigits (b : Nat) : List Char :=
  if b < 16 then [hexDigitChar b] else [hexDigitChar (b / 16), hexDigitChar (b % 16)]

/-- JS String.prototype.padStart(2, "0") on a list of characters. -/
def padStartTwo (l : List Char) : List Char :=
  List.replicate (2 - l.length) '0' ++ l

/-- One byte rendered as exactly two lowercase hex characters:
b.toString(16).padStart(2, "0"). -/
def byteToHexChars (b : Nat) : List Char :=
  padStartTwo (byteHexDigits b)

/-- bytesToHex from src/id.ts (identical to toHex in the primitives module):
map each byte to its zero-padded two-char lowercase hex form and join. -/
def bytesToHex (bytes : Bytes) : String :=
  ⟨(bytes.map byteToHexChars).flatten⟩

/-- The sixteen lowercase hex characters. -/
def lowerHexChars : List Char := "0123456789abcdef".toList

/-- A character is a lowercase hex digit. -/
def isLowerHexChar (c : Char) : Bool := lowerHexChars.contains c

/-- Every character of the string is a lowercase hex digit. -/
def isLowerHex (s : String) : Bool := s.toList.all isLowerHexChar

/-- generateRequestId (src/id.ts) specialised to the already-serialized
canonical JSON string: BLAKE3 of the UTF-8 bytes, rendered as lowercase hex.
blake3fn (noble) and utf8fn (TextEncoder.encode) are external primitives. -/
def requestIdOfJson (blake3fn : Bytes → Bytes) (utf8fn : String → Bytes)
    (json : String) : String :=
  bytesToHex (blake3fn (utf8fn json))

/-- generateRequestId (src/id.ts): JSON.stringify the canonicalized record
(jsonFn, a JS builtin, is deterministic for a fixed value), hash with BLAKE3
and render as hex. -/
def generateRequestId {α : Type} (blake3fn : Bytes → Bytes) (utf8fn : String → Bytes)
    (jsonFn : α → String) (canonicalized : α) : String :=
  requestIdOfJson blake3fn utf8fn (jsonFn canonicalized)

/- ═══════════════ Base64 (primitives b64 = btoa over the byte string) ═══════════════ -/

/-- The base64 alphabet. -/
def base64Chars : List Char :=
  "ABCDEFGHIJKLMNOPQRSTUVWXYZabcdefghijklmnopqrstuvwxyz0123456789+/".toList

/-- Indexing into the base64 alphabet. -/
def b64Char (n : Nat) : Char := base64Chars.getD n 'A'

/-- Standard base64 encoding of a byte list, three bytes to four characters
with '=' padding (the behaviour of btoa on the binary string built byte by
byte in the primitives module). -/
def b64Groups : Bytes → List Char
  | [] => []
  | [a] => [b64Char (a / 4), b64Char (a % 4 * 16), '=', '=']
  | [a, b] => [b64Char (a / 4), b64Char (a % 4 * 16 + b / 16), b64Char (b % 16 * 4), '=']
  | a :: b :: c :: rest =>
      b64Char (a / 4) :: b64Char (a % 4 * 16 + b / 16) ::
        b64Char (b % 16 * 4 + c / 64) :: b64Char (c % 64) :: b64Groups rest

/-- b64 from the primitives module. -/
def b64 (bytes : Bytes) : String := ⟨b64Groups bytes⟩

/- ═══════════════ fromHex (primitives module) ═══════════════ -/

/-- Hex value of a character, accepting both cases (parseInt radix 16). -/
def hexVal? (c : Char) : Option Nat :=
  if '0' ≤ c ∧ c ≤ '9' then some (c.toNat - 48)
  else if 'a' ≤ c ∧ c ≤ 'f' then some (c.toNat - 87)
  else if 'A' ≤ c ∧ c ≤ 'F' then some (c.toNat - 55)
  else none

/-- JS parseInt(two-char slice, 16) followed by Uint8Array coercion: an
invalid first character yields NaN, stored as 0; an invalid second character
leaves only the first digit parsed. -/
def parseIntHex2 (c1 c2 : Char) : Nat :=
  match hexVal? c1 with
  | none => 0
  | some v1 =>
    match hexVal? c2 with
    | none => v1
    | some v2 => v1 * 16 + v2

/-- Consume characters two at a time. -/
def pairBytes : List Char → Bytes
  | c1 :: c2 :: rest => parseIntHex2 c1 c2 :: pairBytes rest
  | _ => []

/-- fromHex from the primitives module: strip an optional 0x, left-pad odd
lengths with "0", then parse byte pairs. -/
def fromHex (hex : String) : Bytes :=
  let s := if hex.startsWith "0x" then hex.drop 2 else hex
  let normalized := if s.length % 2 = 1 then "0" ++ s else s
  pairBytes normalized.toList

/- ═══════════════ Pending-submission store (src/pending.ts) ═══════════════ -/

/-- Default sessionStorage key. -/
def DEFAULT_STORAGE_KEY : String := "loggie.intake.pending"

/-- Default pending TTL: five minutes. -/
def DEFAULT_TTL_MS : Nat := 5 * 60 * 1000

/-- PendingSubmission record persisted in sessionStorage. -/
structure PendingSubmission where
  id : String
  ts : Nat
deriving DecidableEq

/-- sessionStorage, holding parsed pending records by key (setPendingId only
ever writes well-formed JSON, and a parse failure reads as absent). -/
def Store := String → Option PendingSubmission

/-- clearPendingSubmission: sessionStorage.removeItem(storageKey). -/
def clearPendingSubmission (store : Store) (storageKey : String) : Store :=
  fun k => if k = storageKey then none else store k

/-- getPendingId: read the record; if its age exceeds the TTL, delete it and
report absent, else report its id. Date.now() is the explicit now argument.
Returns the (possibly expired-and-cleared) store alongside the result. -/
def getPendingId (store : Store) (storageKey : String) (ttlMs : Nat) (now : Nat) :
    Option String × Store :=
  match store storageKey with
  | none => (none, store)
  | some pending =>
    if now - pending.ts > ttlMs then (none, clearPendingSubmission store storageKey)
    else (some pending.id, store)

/-- setPendingId: unconditional overwrite with the current timestamp. The
writeOk flag models the try/catch around sessionStorage.setItem: a quota or
availability failure is swallowed and the store is left unchanged. -/
def setPendingId (writeOk : Bool) (id : String) (store : Store) (storageKey : String)
    (now : Nat) : Store :=
  if writeOk then fun k => if k = storageKey then some ⟨id, now⟩ else store k
  else store

/- ═══════════════ Rate limiter (src/ratelimit.ts) ═══════════════ -/

/-- Default window: one minute. -/
def DEFAULT_WINDOW_MS : Nat := 60 * 1000

/-- Default maximum submissions per window. -/
def DEFAULT_MAX : Nat := 2

/-- The rateLimit configuration surface: false disables limiting, undefined
selects the defaults, or an explicit max and windowMs pair. -/
inductive RateLimitSetting where
  | disabled
  | unset
  | enabled (max windowMs : Nat)
deriving DecidableEq

/-- The while/shift loop of checkRateLimit: drop leading timestamps strictly
older than the cutoff, stopping at the first that is not. -/
def pruneWindow (cutoff : Nat) : List Nat → List Nat
  | [] => []
  | t :: rest => if t < cutoff then pruneWindow cutoff rest else t :: rest

/-- checkRateLimit: config=false always admits; a retry always admits without
touching the window; otherwise prune timestamps older than now - windowMs
and admit iff the remaining count is strictly below max. Returns the
admission flag together with the (possibly pruned) window, since the source
mutates the module-level timestamp array in place. -/
def checkRateLimit (config : RateLimitSetting) (isRetry : Bool) (now : Nat)
    (window : List Nat) : Bool × List Nat :=
  match config with
  | .disabled => (true, window)
  | _ =>
    if isRetry then (true, window)
    else
      let windowMs := match config with | .enabled _ w => w | _ => DEFAULT_WINDOW_MS
      let maxCount := match config with | .enabled m _ => m | _ => DEFAULT_MAX
      let pruned := pruneWindow (now - windowMs) window
      (decide (pruned.length < maxCount), pruned)

/-- recordSubmit: append Date.now() to the window. -/
def recordSubmit (window : List Nat) (now : Nat) : List Nat := window ++ [now]

/- ═══════════════ Downgrade classification (src/submit.ts, lazy variant) ═══════════════ -/

/-- The closed enumeration of downgrade reason codes (src/types.ts). -/
inductive DowngradeReason where
  | wasm_blocked
  | module_load_failed
  | kyber_unavailable
  | encrypt_failed
  | unknown
deriving DecidableEq

/-- Does the pattern occur as a contiguous run somewhere in the text? -/
def occursIn (pat : List Char) : List Char → Bool
  | [] => pat.isEmpty
  | c :: rest => pat.isPrefixOf (c :: rest) || occursIn pat rest

/-- JS String.prototype.includes: substring containment. -/
def includesSub (s pat : String) : Bool := occursIn pat.data s.data

/-- JS String.prototype.toLowerCase, character-wise (the classifier only
matches ASCII patterns). -/
def jsToLower (s : String) : String := ⟨s.data.map Char.toLower⟩

/-- First category: content-security / WebAssembly hints. -/
def matchesWasmHint (lower : String) : Bool :=
  includesSub lower "csp" || includesSub lower "wasm" || includesSub lower "webassembly"

/-- Second category: module-load / import hints. -/
def matchesModuleHint (lower : String) : Bool :=
  includesSub lower "failed to load" || includesSub lower "module" || includesSub lower "import"

/-- Third category: unavailability hints. -/
def matchesUnavailableHint (lower : String) : Bool :=
  includesSub lower "unavailable" || includesSub lower "not available"

/-- Fourth category: encryption-specific hints. -/
def matchesEncryptHint (lower : String) : Bool :=
  includesSub lower "encrypt"

/-- classifyDowngradeReason: lowercase the raw message, then test the four
substring categories in priority order, defaulting to unknown. -/
def classifyDowngradeReason (msg : String) : DowngradeReason :=
  let lower := jsToLower msg
  if matchesWasmHint lower then .wasm_blocked
  else if matchesModuleHint lower then .module_load_failed
  else if matchesUnavailableHint lower then .kyber_unavailable
  else if matchesEncryptHint lower then .encrypt_failed
  else .unknown

/- ═══════════════ Envelope and the X25519-only classical seal ═══════════════ -/

/-- A nonce plus wrapped-key pair. -/
structure Wrap where
  nonce : String
  wrapped : String
deriving DecidableEq

/-- The OmniHybridV1 envelope shape (envelope-types.ts): all fields are
always present; a classical-only envelope carries empty strings in the
Kyber fields. meta.createdAt is the createdAt field. -/
structure Envelope where
  v : String
  suite : String
  aead : String
  x25519Epk : String
  x25519Wrap : Wrap
  kyberKemCt : String
  kyberWrap : Wrap
  contentNonce : String
  ciphertext : String
  createdAt : String
deriving DecidableEq

/-- External collaborators, passed opaquely: noble blake3, TextEncoder,
tweetnacl secretbox (key, plaintext, nonce order of secretboxRaw) and
scalarMult, the HKDF-SHA-256 wrapper (ikm, salt, info at output length 32),
the envelope-registry version constant, and JSON.stringify on the inner
envelope and on the outer wire object {v, id, pqcUsed, encrypted}. -/
structure ExternalFns where
  blake3 : Bytes → Bytes
  utf8Encode : String → Bytes
  secretbox : Bytes → Bytes → Bytes → Bytes
  scalarMult : Bytes → Bytes → Bytes
  hkdfSha256 : Bytes → Bytes → Bytes → Bytes
  envelopeVersion : String
  stringifyEnvelope : Envelope → String
  stringifyOuter : String → String → Bool → String → String

/-- The random values drawn by one run of encryptX25519Only: the 32-byte
content key (rand32), the 24-byte content nonce (rand24), the ephemeral
X25519 keypair (nacl.box.keyPair), and the 24-byte wrap nonce (rand24). -/
structure X25519Rand where
  ck : Bytes
  contentNonce : Bytes
  ephPk : Bytes
  ephSk : Bytes
  wrapNonce : Bytes

/-- Suite identifier for X25519-only envelopes. -/
def X25519_ONLY_SUITE : String := "x25519"

/-- AEAD identifier (primitives ENVELOPE_AEAD). -/
def ENVELOPE_AEAD : String := "xsalsa20poly1305"

/-- encryptX25519Only: encrypt the plaintext under a fresh content key with
NaCl secretbox, wrap the content key under an HKDF-derived key from an
ephemeral X25519 exchange with the recipient key, and emit an envelope with
suite "x25519" and empty Kyber fields. nowIso is new Date().toISOString(). -/
def encryptX25519Only (ext : ExternalFns) (rnd : X25519Rand) (nowIso : String)
    (plaintext : Bytes) (recipientX25519PubHex : String) : Envelope :=
  let ck := rnd.ck
  let contentNonce := rnd.contentNonce
  let ciphertext := ext.secretbox ck plaintext contentNonce
  let recipientPk := fromHex recipientX25519PubHex
  let shared := ext.scalarMult rnd.ephSk recipientPk
  let kek := ext.hkdfSha256 shared (ext.utf8Encode "omnituum/x25519") (ext.utf8Encode "wrap-ck")
  let wrapNonce := rnd.wrapNonce
  let wrapped := ext.secretbox kek ck wrapNonce
  { v := ext.envelopeVersion
    suite := X25519_ONLY_SUITE
    aead := ENVELOPE_AEAD
    x25519Epk := bytesToHex rnd.ephPk
    x25519Wrap := { nonce := b64 wrapNonce, wrapped := b64 wrapped }
    kyberKemCt := ""
    kyberWrap := { nonce := "", wrapped := "" }
    contentNonce := b64 contentNonce
    ciphertext := b64 ciphertext
    createdAt := nowIso }

/- ═══════════════ The submitSecureIntake orchestrator (lazy variant) ═══════════════ -/

/-- Default wire protocol version tag. -/
def DEFAULT_VERSION : String := "loggie.intake.v1"

/-- Default pre-encryption plaintext ceiling: 32 KB. -/
def DEFAULT_MAX_PLAINTEXT : Nat := 32 * 1024

/-- Default post-encryption envelope ceiling: 56 KB. -/
def DEFAULT_MAX_ENVELOPE : Nat := 56 * 1024

/-- DowngradeEvent (src/types.ts): emitted when hybrid encryption fails in
best-effort mode and the client falls back to the classical seal. -/
structure DowngradeEvent where
  eventName : String
  reason : DowngradeReason
  suite : String
  pqcUsed : Bool
  requireKyber : Bool
  userAgent : Option String
  cspHint : Option String
  rawError : Option String
deriving DecidableEq

/-- SubmitResult (src/types.ts): success with server id and status, or
failure with a human-readable message. -/
inductive SubmitResult where
  | success (id : String) (status : String)
  | failure (error : String)
deriving DecidableEq

/-- The JSON body the client reads from a recognized transport response. -/
structure RespBody where
  ok : Bool
  id : String
  status : String
  error : Option String

/-- A transport response: HTTP status plus the outcome of response.json()
(Except.error when parsing throws). -/
structure TransportResponse where
  status : Nat
  jsonBody : Except String RespBody

/-- IntakeConfig (src/types.ts): optional fields are Option and default
inside submitSecureIntake exactly as in the source. -/
structure IntakeConfig where
  endpoint : String
  x25519PubHex : String
  kyberPubB64 : String
  version : Option String
  maxPlaintextBytes : Option Nat
  maxEnvelopeBytes : Option Nat
  pendingTtlMs : Option Nat
  storageKey : Option String
  rateLimit : RateLimitSetting
  requireKyber : Option Bool
  attemptHybrid : Option Bool
  debugDowngrade : Option Bool

/-- The environment oracle for one submission: Date.now (a single call time
for the submission, whose intra-call drift is not modelled), the ISO
timestamp, navigator.userAgent, the outcome of canonicalize plus
JSON.stringify (the canonical JSON string, or the thrown message), the
capability probe, the lazily loaded hybrid encryption outcome, the
randomness for the classical seal, whether sessionStorage.setItem succeeds,
and the fetch outcome. -/
structure SubmitEnv where
  now : Nat
  nowIso : String
  userAgent : Option String
  canonResult : Except String String
  cryptoAvailable : Bool
  cryptoError : String
  hybridResult : Except String Envelope
  rnd : X25519Rand
  storageWriteOk : Bool
  transport : Except String TransportResponse

/-- The shared mutable state the submission touches: sessionStorage and the
module-level rate-limit timestamp array. -/
structure SubState where
  store : Store
  window : List Nat

/-- Observable side effects of one submitSecureIntake run, for stating frame
properties: the computed retry flag, whether the hybrid module was invoked,
whether the classical seal ran, the envelope constructed (if any), the
downgrade events emitted (console.warn plus the onDowngrade callback),
whether setCachedKyberStatus(true) ran, and whether fetch was invoked. -/
structure Trace where
  isRetry : Bool
  hybridAttempted : Bool
  classicalSealed : Bool
  envelope : Option Envelope
  events : List DowngradeEvent
  kyberStatusSet : Bool
  transportCalled : Bool

/-- The trace before any effect has happened. -/
def baseTrace : Trace :=
  { isRetry := false, hybridAttempted := false, classicalSealed := false,
    envelope := none, events := [], kyberStatusSet := false, transportCalled := false }

/-- JS truthiness of the optional honeypot string: only a present, non-empty
string is truthy. -/
def honeypotTruthy : Option String → Bool
  | none => false
  | some s => !(s == "")

/-- JS a || b for an optional / empty-string field with a fallback message. -/
def jsOr (o : Option String) (d : String) : String :=
  match o with
  | some s => if s == "" then d else s
  | none => d

/-- The request id of the current submission (generateRequestId applied to
the canonical JSON). -/
def submitId (ext : ExternalFns) (canonJson : String) : String :=
  requestIdOfJson ext.blake3 ext.utf8Encode canonJson

/-- The configured storage key with its default. -/
def submitStorageKey (config : IntakeConfig) : String :=
  config.storageKey.getD DEFAULT_STORAGE_KEY

/-- The configured pending TTL with its default. -/
def submitTtl (config : IntakeConfig) : Nat :=
  config.pendingTtlMs.getD DEFAULT_TTL_MS

/-- The pending-id lookup performed at the start of the submission; its
second component is the store after a possible expiry deletion. -/
def submitPendingRead (env : SubmitEnv) (config : IntakeConfig) (st : SubState) :
    Option String × Store :=
  getPendingId st.store (submitStorageKey config) (submitTtl config) env.now

/-- isRetry: the freshly computed id equals the stored pending id. -/
def submitIsRetry (ext : ExternalFns) (env : SubmitEnv) (config : IntakeConfig)
    (st : SubState) (canonJson : String) : Bool :=
  (submitPendingRead env config st).1 == some (submitId ext canonJson)

/-- The rate-limit admission decision and the pruned window it leaves. -/
def submitRateCheck (ext : ExternalFns) (env : SubmitEnv) (config : IntakeConfig)
    (st : SubState) (canonJson : String) : Bool × List Nat :=
  checkRateLimit config.rateLimit (submitIsRetry ext env config st canonJson) env.now st.window

/-- Response classification (the tail of submitSecureIntake): a thrown fetch
or a thrown response.json() on the 200/201 path surfaces through the outer
catch with the pending record intact; 200/201 with ok body clears pending
and records the submission; 200/201 with ok=false clears pending and fails;
4xx clears pending and fails; anything else fails with pending intact. -/
def classifyResponse (storageKey : String) (now : Nat) (store2 : Store)
    (window1 : List Nat) (tr : Except String TransportResponse) :
    SubmitResult × Store × List Nat :=
  match tr with
  | .error msg => (.failure msg, store2, window1)
  | .ok resp =>
    if resp.status = 201 ∨ resp.status = 200 then
      match resp.jsonBody with
      | .error msg => (.failure msg, store2, window1)
      | .ok body =>
        let store3 := clearPendingSubmission store2 storageKey
        if body.ok then
          (.success body.id body.status, store3, recordSubmit window1 now)
        else
          (.failure (jsOr body.error "Unknown error"), store3, window1)
    else if 400 ≤ resp.status ∧ resp.status < 500 then
      let store3 := clearPendingSubmission store2 storageKey
      let fallback := "Request error: " ++ toString resp.status
      let errMsg := match resp.jsonBody with
        | .ok body => jsOr body.error fallback
        | .error _ => fallback
      (.failure errMsg, store3, window1)
    else
      let fallback := "Server error: " ++ toString resp.status ++ ". Please try again."
      let errMsg := match resp.jsonBody with
        | .ok body => jsOr body.error fallback
        | .error _ => fallback
      (.failure errMsg, store2, window1)

/-- The tail of submitSecureIntake after an envelope has been sealed:
serialize the outer wire object, enforce the post-encryption size guard
(no pending write, no transport on violation), write the pending record,
invoke the transport and classify its response. -/
def finishSubmission (ext : ExternalFns) (env : SubmitEnv) (storageKey version : String)
    (maxEnvelope : Nat) (id : String) (pqcUsed : Bool) (encrypted : Envelope)
    (store1 : Store) (window1 : List Nat) (tr : Trace) :
    SubmitResult × SubState × Trace :=
  let envelopeJson := ext.stringifyOuter version id pqcUsed (ext.stringifyEnvelope encrypted)
  if envelopeJson.length > maxEnvelope then
    (.failure "Encrypted submission too large. Please shorten your responses.",
     ⟨store1, window1⟩, tr)
  else
    let store2 := setPendingId env.storageWriteOk id store1 storageKey env.now
    let cr := classifyResponse storageKey env.now store2 window1 env.transport
    (cr.1, ⟨cr.2.1, cr.2.2⟩, { tr with transportCalled := true })

/-- submitSecureIntake (lazy variant): honeypot short-circuit, canonicalize,
compute the id, read the pending record, admit through the rate limiter,
check capability, enforce the pre-encryption size guard, seal (straight to
classical when attemptHybrid is false; otherwise attempt hybrid and on
failure either reject in strict mode or emit one downgrade event and fall
back), then serialize, guard, mark pending, and call the transport. -/
def submitSecureIntake (ext : ExternalFns) (env : SubmitEnv) (config : IntakeConfig)
    (honeypot : Option String) (st : SubState) : SubmitResult × SubState × Trace :=
  if honeypotTruthy honeypot then
    (.success "" "created", st, baseTrace)
  else
    match env.canonResult with
    | .error msg => (.failure msg, st, baseTrace)
    | .ok canonJson =>
      let id := submitId ext canonJson
      let storageKey := submitStorageKey config
      let maxPlaintext := config.maxPlaintextBytes.getD DEFAULT_MAX_PLAINTEXT
      let maxEnvelope := config.maxEnvelopeBytes.getD DEFAULT_MAX_ENVELOPE
      let version := config.version.getD DEFAULT_VERSION
      let store1 := (submitPendingRead env config st).2
      let isRetry := submitIsRetry ext env config st canonJson
      let window1 := (submitRateCheck ext env config st canonJson).2
      let tr0 := { baseTrace with isRetry := isRetry }
      if !(submitRateCheck ext env config st canonJson).1 then
        (.failure "Too many submissions. Please wait a moment before trying again.",
         ⟨store1, window1⟩, tr0)
      else if !env.cryptoAvailable then
        (.failure ("Your browser cannot securely submit this form. " ++ env.cryptoError ++
          ". Please use a modern browser (Chrome, Firefox, Safari, Edge)."),
         ⟨store1, window1⟩, tr0)
      else
        let plaintextBytes := ext.utf8Encode canonJson
        if plaintextBytes.length > maxPlaintext then
          (.failure ("Submission too large (" ++
            toString ((plaintextBytes.length + 512) / 1024) ++
            "KB). Please shorten your responses."),
           ⟨store1, window1⟩, tr0)
        else
          if config.attemptHybrid == some false then
            let encrypted := encryptX25519Only ext env.rnd env.nowIso plaintextBytes
              config.x25519PubHex
            finishSubmission ext env storageKey version maxEnvelope id false encrypted
              store1 window1
              { tr0 with classicalSealed := true, envelope := some encrypted }
          else
            match env.hybridResult with
            | .ok encrypted =>
              finishSubmission ext env storageKey version maxEnvelope id true encrypted
                store1 window1
                { tr0 with hybridAttempted := true, kyberStatusSet := true, envelope := some encrypted }
            | .error hybridMsg =>
              if config.requireKyber == some true then
                (.failure ("Post-quantum encryption unavailable in this environment " ++
                  "(WASM blocked by CSP or unsupported browser). " ++
                  "Cannot submit in strict hybrid mode."),
                 ⟨store1, window1⟩, { tr0 with hybridAttempted := true })
              else
                let reason := classifyDowngradeReason hybridMsg
                let ev : DowngradeEvent :=
                  { eventName := "omnituum.crypto.downgrade"
                    reason := reason
                    suite := X25519_ONLY_SUITE
                    pqcUsed := false
                    requireKyber := false
                    userAgent := env.userAgent
                    cspHint := if reason = DowngradeReason.wasm_blocked then
                        some "WASM compilation likely blocked by Content-Security-Policy"
                      else none
                    rawError := if config.debugDowngrade == some true then some hybridMsg
                      else none }
                let encrypted := encryptX25519Only ext env.rnd env.nowIso plaintextBytes
                  config.x25519PubHex
                finishSubmission ext env storageKey version maxEnvelope id false encrypted
                  store1 window1
                  { tr0 with hybridAttempted := true, classicalSealed := true, envelope := some encrypted, events := [ev] }

/- ═══════════════ Helper lemmas ═══════════════ -/

/-- A list with nonzero stated length is not nil. -/
theorem ne_nil_of_length_eq {l : Bytes} {n : Nat} (h : l.length = n) (hn : n ≠ 0) :
    l ≠ [] := by
  intro hl
  rw [hl] at h
  simp at h
  exact hn h.symm

/-- Base64 of a non-empty byte list is a non-empty string. -/
theorem b64_ne_empty (bytes : Bytes) (h : bytes ≠ []) : b64 bytes ≠ "" := by
  intro hc
  have hdata : b64Groups bytes = [] := congrArg String.data hc
  match bytes, h with
  | a :: t, _ =>
    cases t with
    | nil => simp [b64Groups] at hdata
    | cons b t2 =>
      cases t2 with
      | nil => simp [b64Groups] at hdata
      | cons c r => simp [b64Groups] at hdata

/-- A secretbox with the NaCl length law never returns an empty ciphertext. -/
theorem secretbox_ne_nil (sb : Bytes → Bytes → Bytes → Bytes)
    (hsb : ∀ k m n, (sb k m n).length = m.length + 16) (k m n : Bytes) :
    sb k m n ≠ [] := by
  intro h
  have hl := hsb k m n
  rw [h] at hl
  simp at hl

/-- Hex digits for values below 16 are lowercase hex characters. -/
theorem hexDigitChar_isLowerHex (n : Nat) (h : n < 16) :
    isLowerHexChar (hexDigitChar n) = true := by
  interval_cases n <;> decide

/-- A byte below 256 renders as exactly two characters. -/
theorem byteToHexChars_length (b : Nat) (h : b < 256) : (byteToHexChars b).length = 2 := by
  unfold byteToHexChars byteHexDigits padStartTwo
  by_cases hb : b < 16 <;> simp [hb]

/-- All characters of a rendered byte are lowercase hex. -/
theorem byteToHexChars_lowerHex (b : Nat) (h : b < 256) :
    (byteToHexChars b).all isLowerHexChar = true := by
  unfold byteToHexChars byteHexDigits padStartTwo
  by_cases hb : b < 16
  · simp [hb, hexDigitChar_isLowerHex b hb]
    decide
  · have h1 : b / 16 < 16 := by omega
    have h2 : b % 16 < 16 := Nat.mod_lt _ (by omega)
    simp [hb, hexDigitChar_isLowerHex _ h1, hexDigitChar_isLowerHex _ h2]

/-- bytesToHex renders each byte below 256 as two characters. -/
theorem bytesToHex_length (bytes : Bytes) (h : ∀ b ∈ bytes, b < 256) :
    (bytesToHex bytes).length = 2 * bytes.length := by
  show ((bytes.map byteToHexChars).flatten).length = 2 * bytes.length
  induction bytes with
  | nil => simp
  | cons a t ih =>
    simp only [List.map_cons, List.flatten_cons, List.length_append, List.length_cons]
    rw [byteToHexChars_length a (h a (by simp)), ih (fun b hb => h b (by simp [hb]))]
    ring

/-- bytesToHex of bytes below 256 is all lowercase hex. -/
theorem bytesToHex_lowerHex (bytes : Bytes) (h : ∀ b ∈ bytes, b < 256) :
    isLowerHex (bytesToHex bytes) = true := by
  show ((bytes.map byteToHexChars).flatten).all isLowerHexChar = true
  induction bytes with
  | nil => simp
  | cons a t ih =>
    simp only [List.map_cons, List.flatten_cons, List.all_append]
    rw [byteToHexChars_lowerHex a (h a (by simp)), ih (fun b hb => h b (by simp [hb]))]
    rfl

/- ═══════════════ C9 ═══════════════ -/

/-- C9: generateRequestId is a pure total function of the canonicalized
payload: it always succeeds (it is a total function with no effect
parameters beyond the payload), returns a 64-character lowercase hex string
(given the BLAKE3 primitive's 32-byte Uint8Array output), and calling it
twice on the same payload yields identical output. -/
theorem generateRequestId_hex_deterministic {α : Type}
    (blake3fn : Bytes → Bytes) (utf8fn : String → Bytes) (jsonFn : α → String)
    (canonicalized : α)
    (hlen : (blake3fn (utf8fn (jsonFn canonicalized))).length = 32)
    (hbytes : ∀ b ∈ blake3fn (utf8fn (jsonFn canonicalized)), b < 256) :
    (generateRequestId blake3fn utf8fn jsonFn canonicalized).length = 64
    ∧ isLowerHex (generateRequestId blake3fn utf8fn jsonFn canonicalized) = true
    ∧ generateRequestId blake3fn utf8fn jsonFn canonicalized
        = generateRequestId blake3fn utf8fn jsonFn canonicalized := by
  refine ⟨?_, bytesToHex_lowerHex _ hbytes, rfl⟩
  unfold generateRequestId requestIdOfJson
  rw [bytesToHex_length _ hbytes, hlen]

/-- Witness for C9 at a concrete hash function and payload. -/
theorem generateRequestId_hex_deterministic_witness :
    (generateRequestId (fun _ => List.replicate 32 0) (fun _ => [])
      (fun s : String => s) "x").length = 64
    ∧ isLowerHex (generateRequestId (fun _ => List.replicate 32 0) (fun _ => [])
      (fun s : String => s) "x") = true := by
  have h := generateRequestId_hex_deterministic (fun _ => List.replicate 32 0)
    (fun _ => []) (fun s : String => s) "x" (by decide) (by decide)
  exact ⟨h.1, h.2.1⟩

/- ═══════════════ C2 ═══════════════ -/

/-- C2: for every plaintext and recipient key, the classical-only seal
returns an envelope with suite "x25519", non-empty classical wrap nonce and
wrapped key, non-empty ciphertext and content nonce, and Kyber KEM
ciphertext and Kyber wrap fields present as empty strings. Hypotheses state
the shape of the external primitives: rand24 returns 24 bytes and NaCl
secretbox returns plaintext length plus 16 bytes. -/
theorem encryptX25519Only_envelope_shape (ext : ExternalFns) (rnd : X25519Rand)
    (nowIso : String) (plaintext : Bytes) (pub : String)
    (hcn : rnd.contentNonce.length = 24) (hwn : rnd.wrapNonce.length = 24)
    (hsb : ∀ k m n, (ext.secretbox k m n).length = m.length + 16) :
    (encryptX25519Only ext rnd nowIso plaintext pub).suite = "x25519"
    ∧ (encryptX25519Only ext rnd nowIso plaintext pub).x25519Wrap.nonce ≠ ""
    ∧ (encryptX25519Only ext rnd nowIso plaintext pub).x25519Wrap.wrapped ≠ ""
    ∧ (encryptX25519Only ext rnd nowIso plaintext pub).ciphertext ≠ ""
    ∧ (encryptX25519Only ext rnd nowIso plaintext pub).contentNonce ≠ ""
    ∧ (encryptX25519Only ext rnd nowIso plaintext pub).kyberKemCt = ""
    ∧ (encryptX25519Only ext rnd nowIso plaintext pub).kyberWrap.nonce = ""
    ∧ (encryptX25519Only ext rnd nowIso plaintext pub).kyberWrap.wrapped = "" := by
  refine ⟨rfl, ?_, ?_, ?_, ?_, rfl, rfl, rfl⟩
  · exact b64_ne_empty _ (ne_nil_of_length_eq hwn (by omega))
  · exact b64_ne_empty _ (secretbox_ne_nil ext.secretbox hsb _ _ _)
  · exact b64_ne_empty _ (secretbox_ne_nil ext.secretbox hsb _ _ _)
  · exact b64_ne_empty _ (ne_nil_of_length_eq hcn (by omega))

/-- A concrete instantiation of the external primitives, for witnesses. -/
def extFix : ExternalFns :=
  { blake3 := fun _ => [1, 2]
    utf8Encode := fun s => s.data.map Char.toNat
    secretbox := fun _ m _ => List.replicate (m.length + 16) 0
    scalarMult := fun _ _ => List.replicate 32 0
    hkdfSha256 := fun _ _ _ => List.replicate 32 0
    envelopeVersion := "omni.hybrid.v1"
    stringifyEnvelope := fun _ => "e"
    stringifyOuter := fun _ _ _ _ => "o" }

/-- Concrete randomness of the right Uint8Array sizes, for witnesses. -/
def rndFix : X25519Rand :=
  { ck := List.replicate 32 7, contentNonce := List.replicate 24 8,
    ephPk := List.replicate 32 9, ephSk := List.replicate 32 10,
    wrapNonce := List.replicate 24 11 }

/-- Witness for C2 at concrete primitives, randomness, and plaintext. -/
theorem encryptX25519Only_envelope_shape_witness :
    (encryptX25519Only extFix rndFix "t" [1, 2, 3] "aa").suite = "x25519"
    ∧ (encryptX25519Only extFix rndFix "t" [1, 2, 3] "aa").ciphertext ≠ ""
    ∧ (encryptX25519Only extFix rndFix "t" [1, 2, 3] "aa").kyberKemCt = "" := by
  have h := encryptX25519Only_envelope_shape extFix rndFix "t" [1, 2, 3] "aa"
    (by simp [rndFix]) (by simp [rndFix]) (by intro k m n; simp [extFix])
  exact ⟨h.1, h.2.2.2.1, h.2.2.2.2.2.1⟩

/- ═══════════════ C5 ═══════════════ -/

/-- On a time-sorted window the front-pruning loop removes exactly the
timestamps strictly older than the cutoff. -/
theorem pruneWindow_eq_filter (cutoff : Nat) (w : List Nat)
    (hw : List.Sorted (· ≤ ·) w) :
    pruneWindow cutoff w = w.filter (fun t => decide (¬ t < cutoff)) := by
  induction w with
  | nil => rfl
  | cons t rest ih =>
    rw [List.sorted_cons] at hw
    by_cases h : t < cutoff
    · rw [pruneWindow, if_pos h, ih hw.2, List.filter_cons]
      simp [h]
    · rw [pruneWindow, if_neg h, List.filter_cons]
      have hrest : rest.filter (fun x => decide (¬ x < cutoff)) = rest := by
        apply List.filter_eq_self.mpr
        intro x hx
        simp only [decide_eq_true_eq]
        intro hlt
        exact h (lt_of_le_of_lt (hw.1 x hx) hlt)
      have hd : decide (¬ t < cutoff) = true := by simpa using h
      rw [hd, if_pos rfl]
      exact congrArg (t :: ·) hrest.symm

/-- C5: checkRateLimit admits whenever limiting is disabled; admits every
retry; and otherwise, on a time-sorted window, removes exactly the
timestamps older than now - windowMs and admits iff the remaining count is
strictly below max. Concretely with max=2, windowMs=60000: three non-retry
submissions inside the window admit the first two and reject the third, and
a retry is then admitted regardless of the window state. -/
theorem checkRateLimit_policy :
    (∀ (r : Bool) (now : Nat) (w : List Nat),
      (checkRateLimit .disabled r now w).1 = true)
    ∧ (∀ (cfg : RateLimitSetting) (now : Nat) (w : List Nat),
      (checkRateLimit cfg true now w).1 = true)
    ∧ (∀ (m wms now : Nat) (w : List Nat), List.Sorted (· ≤ ·) w →
      checkRateLimit (.enabled m wms) false now w =
        (decide ((w.filter (fun t => decide (¬ t < now - wms))).length < m),
         w.filter (fun t => decide (¬ t < now - wms))))
    ∧ ((checkRateLimit (.enabled 2 60000) false 1000 []).1 = true
      ∧ (checkRateLimit (.enabled 2 60000) false 2000 (recordSubmit [] 1000)).1 = true
      ∧ (checkRateLimit (.enabled 2 60000) false 3000
          (recordSubmit (recordSubmit [] 1000) 2000)).1 = false
      ∧ (checkRateLimit (.enabled 2 60000) true 3000
          (recordSubmit (recordSubmit [] 1000) 2000)).1 = true) := by
  refine ⟨fun r now w => rfl, ?_, ?_, by decide⟩
  · intro cfg now w
    cases cfg <;> rfl
  · intro m wms now w hw
    show (decide ((pruneWindow (now - wms) w).length < m), pruneWindow (now - wms) w) = _
    rw [pruneWindow_eq_filter _ _ hw]

/-- Witness for C5's sorted-window characterization at a concrete window. -/
theorem checkRateLimit_policy_witness :
    checkRateLimit (.enabled 2 60000) false 70000 [5, 30000] = (true, [30000]) := by
  have h := checkRateLimit_policy.2.2.1 2 60000 70000 [5, 30000]
    (by simp [List.Sorted])
  rw [h]
  decide

/- ═══════════════ C6 ═══════════════ -/

/-- C6: the downgrade classifier is a total map into the five-value reason
enumeration, decided by substring inspection of the lowercased message in
priority order: content-security/WASM hints first, then module-load/import
hints, then unavailability hints, then encryption hints, else unknown; a
message matching several categories gets the earliest one. -/
theorem classifyDowngradeReason_priority (msg : String) :
    (matchesWasmHint (jsToLower msg) = true →
      classifyDowngradeReason msg = .wasm_blocked)
    ∧ (matchesWasmHint (jsToLower msg) = false →
       matchesModuleHint (jsToLower msg) = true →
      classifyDowngradeReason msg = .module_load_failed)
    ∧ (matchesWasmHint (jsToLower msg) = false →
       matchesModuleHint (jsToLower msg) = false →
       matchesUnavailableHint (jsToLower msg) = true →
      classifyDowngradeReason msg = .kyber_unavailable)
    ∧ (matchesWasmHint (jsToLower msg) = false →
       matchesModuleHint (jsToLower msg) = false →
       matchesUnavailableHint (jsToLower msg) = false →
       matchesEncryptHint (jsToLower msg) = true →
      classifyDowngradeReason msg = .encrypt_failed)
    ∧ (matchesWasmHint (jsToLower msg) = false →
       matchesModuleHint (jsToLower msg) = false →
       matchesUnavailableHint (jsToLower msg) = false →
       matchesEncryptHint (jsToLower msg) = false →
      classifyDowngradeReason msg = .unknown) := by
  refine ⟨?_, ?_, ?_, ?_, ?_⟩
  · intro h1
    simp [classifyDowngradeReason, h1]
  · intro h1 h2
    simp [classifyDowngradeReason, h1, h2]
  · intro h1 h2 h3
    simp [classifyDowngradeReason, h1, h2, h3]
  · intro h1 h2 h3 h4
    simp [classifyDowngradeReason, h1, h2, h3, h4]
  · intro h1 h2 h3 h4
    simp [classifyDowngradeReason, h1, h2, h3, h4]

/-- Witness for C6 at a message matching all four categories: the earliest
(content-security/WASM) wins. -/
theorem classifyDowngradeReason_priority_witness :
    classifyDowngradeReason "WASM module encrypt unavailable" = .wasm_blocked := by
  exact (classifyDowngradeReason_priority "WASM module encrypt unavailable").1 (by decide)

/- ═══════════════ Orchestrator helper lemmas and fixtures ═══════════════ -/

/-- On every path past the honeypot and canonicalization, the trace's retry
flag is the comparison of the fresh id with the stored pending id. -/
theorem submit_trace_isRetry (ext : ExternalFns) (env : SubmitEnv) (config : IntakeConfig)
    (hp : Option String) (st : SubState) (cj : String)
    (hhp : honeypotTruthy hp = false) (hcanon : env.canonResult = .ok cj) :
    (submitSecureIntake ext env config hp st).2.2.isRetry
      = submitIsRetry ext env config st cj := by
  unfold submitSecureIntake
  rw [hhp, hcanon]
  simp only [Bool.false_eq_true, if_false]
  split
  · rfl
  · split
    · rfl
    · split
      · rfl
      · split
        · simp only [finishSubmission]
          split <;> rfl
        · split
          · simp only [finishSubmission]
            split <;> rfl
          · split
            · rfl
            · simp only [finishSubmission]
              split <;> rfl

/-- A fixed hybrid envelope, standing for a successful hybrid seal. -/
def hybridEnvFix : Envelope :=
  { v := "v", suite := "hybrid", aead := "a", x25519Epk := "epk",
    x25519Wrap := ⟨"n", "w"⟩, kyberKemCt := "kc", kyberWrap := ⟨"kn", "kw"⟩,
    contentNonce := "cn", ciphertext := "ct", createdAt := "at" }

/-- An all-defaults configuration, for witnesses. -/
def confFix : IntakeConfig :=
  { endpoint := "/api/intake", x25519PubHex := "aa", kyberPubB64 := "bb",
    version := none, maxPlaintextBytes := none, maxEnvelopeBytes := none,
    pendingTtlMs := none, storageKey := none, rateLimit := .unset,
    requireKyber := none, attemptHybrid := none, debugDowngrade := none }

/-- A fully successful environment oracle, for witnesses. -/
def envFix : SubmitEnv :=
  { now := 10, nowIso := "t", userAgent := none, canonResult := .ok "cj",
    cryptoAvailable := true, cryptoError := "", hybridResult := .ok hybridEnvFix,
    rnd := rndFix, storageWriteOk := true,
    transport := .ok ⟨201, .ok ⟨true, "srv", "created", none⟩⟩ }

/-- Empty shared state: no pending record, empty rate window. -/
def stEmpty : SubState := ⟨fun _ => none, []⟩

/- ═══════════════ C4 ═══════════════ -/

/-- C4: after setPendingId, getPendingId returns the stored id while the
elapsed time is within the TTL, and returns absent, deleting the record,
once the elapsed time exceeds the TTL; and submitSecureIntake flags a
submission as a retry exactly when the freshly computed request id equals
the stored pending id. -/
theorem pending_ttl_and_retry_detection :
    (∀ (store : Store) (key id : String) (t0 ttl now : Nat),
      (now - t0 ≤ ttl →
        (getPendingId (setPendingId true id store key t0) key ttl now).1 = some id)
      ∧ (now - t0 > ttl →
        (getPendingId (setPendingId true id store key t0) key ttl now).1 = none
        ∧ (getPendingId (setPendingId true id store key t0) key ttl now).2 key = none))
    ∧ (∀ (ext : ExternalFns) (env : SubmitEnv) (config : IntakeConfig)
        (hp : Option String) (st : SubState) (cj : String),
        honeypotTruthy hp = false → env.canonResult = .ok cj →
      ((submitSecureIntake ext env config hp st).2.2.isRetry = true
        ↔ (getPendingId st.store (submitStorageKey config) (submitTtl config) env.now).1
            = some (submitId ext cj))) := by
  constructor
  · intro store key id t0 ttl now
    constructor
    · intro hle
      have hc : ¬ (now - t0 > ttl) := by omega
      simp [getPendingId, setPendingId, hc]
    · intro hgt
      refine ⟨?_, ?_⟩
      · simp [getPendingId, setPendingId, hgt]
      · simp [getPendingId, setPendingId, clearPendingSubmission, hgt]
  · intro ext env config hp st cj hhp hcanon
    rw [submit_trace_isRetry ext env config hp st cj hhp hcanon]
    unfold submitIsRetry submitPendingRead
    exact beq_iff_eq

/-- Witness for C4 at a concrete store, timestamps, and a concrete run. -/
theorem pending_ttl_and_retry_detection_witness :
    (getPendingId (setPendingId true "abc" (fun _ => none) "k" 100) "k" 50 120).1 = some "abc"
    ∧ (getPendingId (setPendingId true "abc" (fun _ => none) "k" 100) "k" 50 200).1 = none
    ∧ ((submitSecureIntake extFix envFix confFix none stEmpty).2.2.isRetry = true
        ↔ (getPendingId stEmpty.store (submitStorageKey confFix) (submitTtl confFix)
            envFix.now).1 = some (submitId extFix "cj")) := by
  have h1 := pending_ttl_and_retry_detection.1 (fun _ => none) "k" "abc" 100 50 120
  have h2 := pending_ttl_and_retry_detection.1 (fun _ => none) "k" "abc" 100 50 200
  have h3 := pending_ttl_and_retry_detection.2 extFix envFix confFix none stEmpty "cj" rfl rfl
  exact ⟨h1.1 (by omega), (h2.2 (by omega)).1, h3⟩

/- ═══════════════ C1 ═══════════════ -/

/-- C1: when the hybrid attempt fails, strict mode (requireKyber = some
true) yields a rejection with no envelope constructed, no pending record
written (the store is exactly the one left by the initial pending read),
no downgrade event, no classical seal, and no transport call; with
requireKyber false or undefined the same failure yields exactly one
downgrade event and a classical X25519-only envelope. -/
theorem submitSecureIntake_strict_mode (ext : ExternalFns) (env : SubmitEnv)
    (config : IntakeConfig) (hp : Option String) (st : SubState) (cj msg : String)
    (hhp : honeypotTruthy hp = false)
    (hcanon : env.canonResult = .ok cj)
    (hallow : (submitRateCheck ext env config st cj).1 = true)
    (hcap : env.cryptoAvailable = true)
    (hsize : ¬ (ext.utf8Encode cj).length > config.maxPlaintextBytes.getD DEFAULT_MAX_PLAINTEXT)
    (hatt : ¬ config.attemptHybrid = some false)
    (hfail : env.hybridResult = .error msg) :
    (config.requireKyber = some true →
      (submitSecureIntake ext env config hp st).1 =
        .failure ("Post-quantum encryption unavailable in this environment " ++
          "(WASM blocked by CSP or unsupported browser). " ++
          "Cannot submit in strict hybrid mode.")
      ∧ (submitSecureIntake ext env config hp st).2.1.store = (submitPendingRead env config st).2
      ∧ (submitSecureIntake ext env config hp st).2.2.envelope = none
      ∧ (submitSecureIntake ext env config hp st).2.2.events = []
      ∧ (submitSecureIntake ext env config hp st).2.2.classicalSealed = false
      ∧ (submitSecureIntake ext env config hp st).2.2.transportCalled = false)
    ∧ (¬ config.requireKyber = some true →
      (submitSecureIntake ext env config hp st).2.2.events.length = 1
      ∧ (submitSecureIntake ext env config hp st).2.2.envelope =
          some (encryptX25519Only ext env.rnd env.nowIso (ext.utf8Encode cj) config.x25519PubHex)
      ∧ (encryptX25519Only ext env.rnd env.nowIso (ext.utf8Encode cj) config.x25519PubHex).suite
          = "x25519"
      ∧ (submitSecureIntake ext env config hp st).2.2.classicalSealed = true) := by
  have hatt' : (config.attemptHybrid == some false) = false := beq_eq_false_iff_ne.mpr hatt
  constructor
  · intro hreq
    have hreq' : (config.requireKyber == some true) = true := by rw [hreq]; rfl
    unfold submitSecureIntake
    rw [hhp, hcanon]
    simp only [Bool.false_eq_true, if_false, hallow, hcap, Bool.not_true, hatt', hfail, hreq',
      eq_self_iff_true, if_true]
    rw [if_neg hsize]
    exact ⟨rfl, rfl, rfl, rfl, rfl, rfl⟩
  · intro hreq
    have hreq' : (config.requireKyber == some true) = false := beq_eq_false_iff_ne.mpr hreq
    unfold submitSecureIntake
    rw [hhp, hcanon]
    simp only [Bool.false_eq_true, if_false, hallow, hcap, Bool.not_true, hatt', hfail, hreq']
    rw [if_neg hsize]
    simp only [finishSubmission]
    refine ⟨?_, ?_, rfl, ?_⟩ <;> (split <;> rfl)

/-- A strict-mode configuration, for witnesses. -/
def confStrict : IntakeConfig := { confFix with requireKyber := some true }

/-- An environment in which the hybrid attempt throws, for witnesses. -/
def envHybridFail : SubmitEnv := { envFix with hybridResult := .error "wasm blocked" }

/-- Witness for C1: a concrete strict-mode rejection with no downgrade
event, and the same failure in default mode emitting exactly one event. -/
theorem submitSecureIntake_strict_mode_witness :
    (submitSecureIntake extFix envHybridFail confStrict none stEmpty).1 =
      .failure ("Post-quantum encryption unavailable in this environment " ++
        "(WASM blocked by CSP or unsupported browser). " ++
        "Cannot submit in strict hybrid mode.")
    ∧ (submitSecureIntake extFix envHybridFail confStrict none stEmpty).2.2.events = []
    ∧ (submitSecureIntake extFix envHybridFail confFix none stEmpty).2.2.events.length = 1 := by
  have h := submitSecureIntake_strict_mode extFix envHybridFail confStrict none stEmpty
    "cj" "wasm blocked" rfl rfl (by decide) rfl (by decide) (by decide) rfl
  have h2 := submitSecureIntake_strict_mode extFix envHybridFail confFix none stEmpty
    "cj" "wasm blocked" rfl rfl (by decide) rfl (by decide) (by decide) rfl
  exact ⟨(h.1 rfl).1, (h.1 rfl).2.2.2.1, (h2.2 (by decide)).1⟩

/- ═══════════════ C8 ═══════════════ -/

/-- C8: the pre-encryption size guard returns a client rejection whose
state carries no pending write and whose trace shows no hybrid attempt, no
classical seal, no envelope and no transport call (key material untouched);
and the post-encryption guard, for every sealed envelope, fails without
writing the pending record and without invoking the transport (the state
is exactly the pre-guard state and the trace is unchanged). -/
theorem submitSecureIntake_size_guards (ext : ExternalFns) (env : SubmitEnv)
    (config : IntakeConfig) (hp : Option String) (st : SubState) (cj : String)
    (hhp : honeypotTruthy hp = false)
    (hcanon : env.canonResult = .ok cj)
    (hallow : (submitRateCheck ext env config st cj).1 = true)
    (hcap : env.cryptoAvailable = true) :
    ((ext.utf8Encode cj).length > config.maxPlaintextBytes.getD DEFAULT_MAX_PLAINTEXT →
      submitSecureIntake ext env config hp st =
        (.failure ("Submission too large (" ++
            toString (((ext.utf8Encode cj).length + 512) / 1024) ++
            "KB). Please shorten your responses."),
         ⟨(submitPendingRead env config st).2, (submitRateCheck ext env config st cj).2⟩,
         { baseTrace with isRetry := submitIsRetry ext env config st cj }))
    ∧ (∀ (storageKey version id : String) (maxEnvelope : Nat) (pqcUsed : Bool)
        (encrypted : Envelope) (store1 : Store) (window1 : List Nat) (tr : Trace),
        (ext.stringifyOuter version id pqcUsed (ext.stringifyEnvelope encrypted)).length
            > maxEnvelope →
        finishSubmission ext env storageKey version maxEnvelope id pqcUsed encrypted
            store1 window1 tr =
          (.failure "Encrypted submission too large. Please shorten your responses.",
           ⟨store1, window1⟩, tr)) := by
  constructor
  · intro hbig
    unfold submitSecureIntake
    rw [hhp, hcanon]
    simp only [Bool.false_eq_true, if_false, hallow, hcap, Bool.not_true]
    rw [if_pos hbig]
  · intro storageKey version id maxEnvelope pqcUsed encrypted store1 window1 tr hbig
    simp only [finishSubmission]
    rw [if_pos hbig]

/-- A configuration with a one-byte plaintext ceiling, for the witness. -/
def confTiny : IntakeConfig := { confFix with maxPlaintextBytes := some 1 }

/-- Witness for C8: the pre-guard trips on a two-byte plaintext under a
one-byte ceiling with an untouched trace, and the post-guard trips under a
zero-byte envelope ceiling without writing pending or calling transport. -/
theorem submitSecureIntake_size_guards_witness :
    (submitSecureIntake extFix envFix confTiny none stEmpty).2.2.transportCalled = false
    ∧ (submitSecureIntake extFix envFix confTiny none stEmpty).2.2.envelope = none
    ∧ finishSubmission extFix envFix "k" "v" 0 "id" false hybridEnvFix stEmpty.store [] baseTrace
        = (.failure "Encrypted submission too large. Please shorten your responses.",
           ⟨stEmpty.store, []⟩, baseTrace) := by
  have h := submitSecureIntake_size_guards extFix envFix confTiny none stEmpty "cj"
    rfl rfl (by decide) rfl
  have h1 := h.1 (by decide)
  have h2 := h.2 "k" "v" "id" 0 false hybridEnvFix stEmpty.store [] baseTrace (by decide)
  exact ⟨by rw [h1]; rfl, by rw [h1]; rfl, h2⟩

/- ═══════════════ C3 ═══════════════ -/

/-- C3 (amended): on a 200/201 response whose body carries ok=false,
submitSecureIntake returns a failure and CLEARS the pending record for the
configured storage key (clearPendingSubmission runs before the ok check in
the source), so a later resubmission of the same payload is NOT detected as
a retry. -/
theorem submit_2xx_okfalse_clears_pending (ext : ExternalFns) (env : SubmitEnv)
    (config : IntakeConfig) (hp : Option String) (st : SubState) (cj : String)
    (e : Envelope) (resp : TransportResponse) (body : RespBody)
    (hhp : honeypotTruthy hp = false)
    (hcanon : env.canonResult = .ok cj)
    (hallow : (submitRateCheck ext env config st cj).1 = true)
    (hcap : env.cryptoAvailable = true)
    (hsize : ¬ (ext.utf8Encode cj).length > config.maxPlaintextBytes.getD DEFAULT_MAX_PLAINTEXT)
    (hatt : ¬ config.attemptHybrid = some false)
    (hhyb : env.hybridResult = .ok e)
    (hpost : ¬ (ext.stringifyOuter (config.version.getD DEFAULT_VERSION) (submitId ext cj) true
        (ext.stringifyEnvelope e)).length > config.maxEnvelopeBytes.getD DEFAULT_MAX_ENVELOPE)
    (htr : env.transport = .ok resp)
    (hst : resp.status = 201 ∨ resp.status = 200)
    (hjson : resp.jsonBody = .ok body)
    (hok : body.ok = false) :
    (submitSecureIntake ext env config hp st).1 = .failure (jsOr body.error "Unknown error")
    ∧ (submitSecureIntake ext env config hp st).2.1.store (submitStorageKey config) = none
    ∧ (∀ (ttl n2 : Nat),
        (getPendingId (submitSecureIntake ext env config hp st).2.1.store
          (submitStorageKey config) ttl n2).1 = none) := by
  have hatt' : (config.attemptHybrid == some false) = false := beq_eq_false_iff_ne.mpr hatt
  have hred : submitSecureIntake ext env config hp st =
      (.failure (jsOr body.error "Unknown error"),
       ⟨clearPendingSubmission
          (setPendingId env.storageWriteOk (submitId ext cj) (submitPendingRead env config st).2
            (submitStorageKey config) env.now) (submitStorageKey config),
        (submitRateCheck ext env config st cj).2⟩,
       { baseTrace with isRetry := submitIsRetry ext env config st cj, hybridAttempted := true, kyberStatusSet := true, envelope := some e, transportCalled := true }) := by
    unfold submitSecureIntake
    rw [hhp, hcanon]
    simp only [Bool.false_eq_true, if_false, hallow, hcap, Bool.not_true, hatt', hhyb]
    rw [if_neg hsize]
    simp only [finishSubmission]
    rw [if_neg hpost]
    unfold classifyResponse
    rw [htr]
    simp only [if_pos hst, hjson, hok, Bool.false_eq_true, if_false]
  refine ⟨by rw [hred], ?_, ?_⟩
  · rw [hred]
    simp [clearPendingSubmission]
  · intro ttl n2
    rw [hred]
    simp [getPendingId, clearPendingSubmission]

/-- A transport response with 200 and an explicit ok=false body. -/
def envOkFalse : SubmitEnv :=
  { envFix with transport := .ok ⟨200, .ok ⟨false, "", "", some "rejected"⟩⟩ }

/-- Witness for C3's amended theorem at a concrete 200/ok=false run. -/
theorem submit_2xx_okfalse_clears_pending_witness :
    (submitSecureIntake extFix envOkFalse confFix none stEmpty).1
      = .failure (jsOr (some "rejected") "Unknown error")
    ∧ (submitSecureIntake extFix envOkFalse confFix none stEmpty).2.1.store
        (submitStorageKey confFix) = none := by
  have h := submit_2xx_okfalse_clears_pending extFix envOkFalse confFix none stEmpty "cj"
    hybridEnvFix ⟨200, .ok ⟨false, "", "", some "rejected"⟩⟩ ⟨false, "", "", some "rejected"⟩
    rfl rfl (by decide) rfl (by decide) (by decide) rfl (by decide) rfl (by decide) rfl rfl
  exact ⟨h.1, h.2.1⟩

/-- A transport response with a 500 status, for contrast. -/
def env500 : SubmitEnv :=
  { envFix with transport := .ok ⟨500, .ok ⟨false, "", "", some "boom"⟩⟩ }

/-- Counterexample to C3 as stated: at a concrete run, a 200 response with
ok=false returns a failure but the pending record is CLEARED (the store no
longer holds a record at the configured key), whereas the identical run
with a 500 status shows the pending record had indeed been written. -/
theorem submit_2xx_okfalse_counterexample :
    (submitSecureIntake extFix envOkFalse confFix none stEmpty).1 = .failure "rejected"
    ∧ (submitSecureIntake extFix envOkFalse confFix none stEmpty).2.1.store
        "loggie.intake.pending" = none
    ∧ (submitSecureIntake extFix env500 confFix none stEmpty).2.1.store
        "loggie.intake.pending" = some ⟨submitId extFix "cj", 10⟩ := by
  refine ⟨?_, ?_, ?_⟩ <;> decide

/- ═══════════════ C7 ═══════════════ -/

/-- C7 (amended): a retry is admitted by checkRateLimit without pruning or
consuming the window (the window is returned untouched); however,
response classification appends a timestamp via recordSubmit on every
transport success regardless of the retry flag, so the window records all
successful submissions, not only non-retries. -/
theorem rateLimit_retry_bypass_and_record :
    (∀ (cfg : RateLimitSetting) (now : Nat) (w : List Nat),
      checkRateLimit cfg true now w = (true, w))
    ∧ (∀ (storageKey : String) (now : Nat) (store2 : Store) (window1 : List Nat)
        (resp : TransportResponse) (body : RespBody),
        (resp.status = 201 ∨ resp.status = 200) → resp.jsonBody = .ok body →
        body.ok = true →
        classifyResponse storageKey now store2 window1 (.ok resp) =
          (.success body.id body.status, clearPendingSubmission store2 storageKey,
           recordSubmit window1 now)) := by
  constructor
  · intro cfg now w
    cases cfg <;> rfl
  · intro storageKey now store2 window1 resp body hst hjson hok
    unfold classifyResponse
    simp only [if_pos hst, hjson, hok, if_true]

/-- Initial state carrying a pending record that matches the id the fixture
primitives compute for the canonical JSON "cj". -/
def stPendingFix : SubState :=
  ⟨fun k => if k = "loggie.intake.pending" then some ⟨"0102", 5⟩ else none, []⟩

/-- A configuration whose rate limit admits zero non-retry submissions. -/
def confMax0 : IntakeConfig := { confFix with rateLimit := .enabled 0 60000 }

/-- Counterexample to C7 as stated: a concrete submission detected as a
retry (it is admitted although the window admits zero non-retries: the
same check with isRetry=false rejects) nevertheless appends its timestamp
to the window once the transport succeeds. -/
theorem rateLimit_retry_counterexample :
    (submitSecureIntake extFix envFix confMax0 none stPendingFix).2.2.isRetry = true
    ∧ (submitSecureIntake extFix envFix confMax0 none stPendingFix).2.1.window = [10]
    ∧ (checkRateLimit (.enabled 0 60000) false 10 []).1 = false := by
  refine ⟨?_, ?_, ?_⟩ <;> decide

/-- Witness for C7's amended theorem at a concrete window and response. -/
theorem rateLimit_retry_bypass_and_record_witness :
    checkRateLimit (.enabled 2 60000) true 99 [1, 2, 3] = (true, [1, 2, 3])
    ∧ classifyResponse "k" 42 stEmpty.store [7] (.ok ⟨200, .ok ⟨true, "sid", "duplicate", none⟩⟩)
        = (.success "sid" "duplicate", clearPendingSubmission stEmpty.store "k",
           recordSubmit [7] 42) := by
  exact ⟨rateLimit_retry_bypass_and_record.1 (.enabled 2 60000) 99 [1, 2, 3],
    rateLimit_retry_bypass_and_record.2 "k" 42 stEmpty.store [7]
      ⟨200, .ok ⟨true, "sid", "duplicate", none⟩⟩ ⟨true, "sid", "duplicate", none⟩
      (by decide) rfl rfl⟩

/- ═══════════════ C10 ═══════════════ -/

/-- C10 (amended): submitSecureIntake is a total function into
SubmitResult. A truthy (non-empty) honeypot short-circuits to a synthetic
success with an empty id before any effect; an empty-string honeypot does
not short-circuit (the run is identical to no honeypot). A canonicalization
throw surfaces as an ok=false result with no effect; a transport throw
surfaces as an ok=false result carrying the thrown message with the pending
record written for the attempt left intact. A sessionStorage write failure,
however, is swallowed, not surfaced: the submission proceeds and can
succeed. -/
theorem submitSecureIntake_total_exceptions :
    (∀ (ext : ExternalFns) (env : SubmitEnv) (config : IntakeConfig) (st : SubState)
        (s : String), ¬ s = "" →
      submitSecureIntake ext env config (some s) st = (.success "" "created", st, baseTrace))
    ∧ (∀ (ext : ExternalFns) (env : SubmitEnv) (config : IntakeConfig) (st : SubState),
      submitSecureIntake ext env config (some "") st = submitSecureIntake ext env config none st)
    ∧ (∀ (ext : ExternalFns) (env : SubmitEnv) (config : IntakeConfig) (hp : Option String)
        (st : SubState) (msg : String),
        honeypotTruthy hp = false → env.canonResult = .error msg →
      submitSecureIntake ext env config hp st = (.failure msg, st, baseTrace))
    ∧ (∀ (ext : ExternalFns) (env : SubmitEnv) (config : IntakeConfig) (hp : Option String)
        (st : SubState) (cj tmsg : String) (e : Envelope),
        honeypotTruthy hp = false → env.canonResult = .ok cj →
        (submitRateCheck ext env config st cj).1 = true → env.cryptoAvailable = true →
        ¬ (ext.utf8Encode cj).length > config.maxPlaintextBytes.getD DEFAULT_MAX_PLAINTEXT →
        ¬ config.attemptHybrid = some false → env.hybridResult = .ok e →
        ¬ (ext.stringifyOuter (config.version.getD DEFAULT_VERSION) (submitId ext cj) true
            (ext.stringifyEnvelope e)).length > config.maxEnvelopeBytes.getD DEFAULT_MAX_ENVELOPE →
        env.transport = .error tmsg → env.storageWriteOk = true →
      (submitSecureIntake ext env config hp st).1 = .failure tmsg
      ∧ (submitSecureIntake ext env config hp st).2.1.store (submitStorageKey config)
          = some ⟨submitId ext cj, env.now⟩)
    ∧ (∀ (ext : ExternalFns) (env : SubmitEnv) (config : IntakeConfig) (hp : Option String)
        (st : SubState) (cj : String) (e : Envelope) (resp : TransportResponse)
        (body : RespBody),
        honeypotTruthy hp = false → env.canonResult = .ok cj →
        (submitRateCheck ext env config st cj).1 = true → env.cryptoAvailable = true →
        ¬ (ext.utf8Encode cj).length > config.maxPlaintextBytes.getD DEFAULT_MAX_PLAINTEXT →
        ¬ config.attemptHybrid = some false → env.hybridResult = .ok e →
        ¬ (ext.stringifyOuter (config.version.getD DEFAULT_VERSION) (submitId ext cj) true
            (ext.stringifyEnvelope e)).length > config.maxEnvelopeBytes.getD DEFAULT_MAX_ENVELOPE →
        env.storageWriteOk = false → env.transport = .ok resp →
        (resp.status = 201 ∨ resp.status = 200) → resp.jsonBody = .ok body → body.ok = true →
      (submitSecureIntake ext env config hp st).1 = .success body.id body.status) := by
  refine ⟨?_, ?_, ?_, ?_, ?_⟩
  · intro ext env config st s hs
    have hs' : (s == "") = false := beq_eq_false_iff_ne.mpr hs
    have hh : honeypotTruthy (some s) = true := by
      simp only [honeypotTruthy, hs']
      rfl
    unfold submitSecureIntake
    rw [hh]
    rfl
  · intro ext env config st
    rfl
  · intro ext env config hp st msg hhp hcanon
    unfold submitSecureIntake
    rw [hhp, hcanon]
    rfl
  · intro ext env config hp st cj tmsg e hhp hcanon hallow hcap hsize hatt hhyb hpost htr hsw
    have hatt' : (config.attemptHybrid == some false) = false := beq_eq_false_iff_ne.mpr hatt
    have hred : submitSecureIntake ext env config hp st =
        (.failure tmsg,
         ⟨setPendingId env.storageWriteOk (submitId ext cj) (submitPendingRead env config st).2
            (submitStorageKey config) env.now,
          (submitRateCheck ext env config st cj).2⟩,
         { baseTrace with isRetry := submitIsRetry ext env config st cj, hybridAttempted := true, kyberStatusSet := true, envelope := some e, transportCalled := true }) := by
      unfold submitSecureIntake
      rw [hhp, hcanon]
      simp only [Bool.false_eq_true, if_false, hallow, hcap, Bool.not_true, hatt', hhyb]
      rw [if_neg hsize]
      simp only [finishSubmission]
      rw [if_neg hpost]
      unfold classifyResponse
      rw [htr]
    refine ⟨by rw [hred], ?_⟩
    rw [hred, hsw]
    simp [setPendingId]
  · intro ext env config hp st cj e resp body hhp hcanon hallow hcap hsize hatt hhyb hpost
      hsw htr hst hjson hok
    have hatt' : (config.attemptHybrid == some false) = false := beq_eq_false_iff_ne.mpr hatt
    have hred : (submitSecureIntake ext env config hp st).1 = .success body.id body.status := by
      unfold submitSecureIntake
      rw [hhp, hcanon]
      simp only [Bool.false_eq_true, if_false, hallow, hcap, Bool.not_true, hatt', hhyb]
      rw [if_neg hsize]
      simp only [finishSubmission]
      rw [if_neg hpost]
      unfold classifyResponse
      rw [htr]
      simp only [if_pos hst, hjson, hok, if_true]
    exact hred

/-- An environment whose sessionStorage write fails, everything else
succeeding. -/
def envNoStore : SubmitEnv := { envFix with storageWriteOk := false }

/-- Counterexample to C10 as stated: at a concrete input the storage write
throws (the pending record is not persisted), yet the submission is not
surfaced as an ok=false result — it completes with ok=true. -/
theorem submit_storage_swallowed_counterexample :
    (submitSecureIntake extFix envNoStore confFix none stEmpty).1 = .success "srv" "created"
    ∧ (submitSecureIntake extFix envNoStore confFix none stEmpty).2.1.store
        "loggie.intake.pending" = none := by
  refine ⟨?_, ?_⟩ <;> decide

/-- An environment whose fetch throws. -/
def envNetFail : SubmitEnv := { envFix with transport := .error "network down" }

/-- An environment whose canonicalize call throws. -/
def envCanonFail : SubmitEnv := { envFix with canonResult := .error "circular" }

/-- Witness for C10's amended theorem at concrete runs: truthy honeypot
short-circuit, canonicalization throw surfaced, transport throw surfaced
with pending intact, and a swallowed storage failure still succeeding. -/
theorem submitSecureIntake_total_exceptions_witness :
    (submitSecureIntake extFix envFix confFix (some "bot") stEmpty
        = (.success "" "created", stEmpty, baseTrace))
    ∧ (submitSecureIntake extFix envCanonFail confFix none stEmpty
        = (.failure "circular", stEmpty, baseTrace))
    ∧ (submitSecureIntake extFix envNetFail confFix none stEmpty).1 = .failure "network down"
    ∧ (submitSecureIntake extFix envNetFail confFix none stEmpty).2.1.store
        (submitStorageKey confFix) = some ⟨submitId extFix "cj", 10⟩
    ∧ (submitSecureIntake extFix envNoStore confFix none stEmpty).1
        = .success "srv" "created" := by
  have h1 := submitSecureIntake_total_exceptions.1 extFix envFix confFix stEmpty "bot"
    (by decide)
  have h3 := submitSecureIntake_total_exceptions.2.2.1 extFix envCanonFail confFix none stEmpty
    "circular" rfl rfl
  have h4 := submitSecureIntake_total_exceptions.2.2.2.1 extFix envNetFail confFix none stEmpty
    "cj" "network down" hybridEnvFix rfl rfl (by decide) rfl (by decide) (by decide) rfl
    (by decide) rfl rfl
  have h5 := submitSecureIntake_total_exceptions.2.2.2.2 extFix envNoStore confFix none stEmpty
    "cj" hybridEnvFix ⟨201, .ok ⟨true, "srv", "created", none⟩⟩ ⟨true, "srv", "created", none⟩
    rfl rfl (by decide) rfl (by decide) (by decide) rfl (by decide) rfl rfl (by decide) rfl rfl
  exact ⟨h1, h3, h4.1, h4.2, h5⟩

end SecureIntake
